import Mathlib

/-!
Verification of the order-composition state model of the FoodDetails screen
(src/src/pages/FoodDetails/index.tsx).

Modelling conventions (shallow embedding of the TypeScript source):
* JavaScript numbers are modelled exactly: integer-valued counters as `Int`,
  monetary values as `ℚ`.  A JavaScript number that may be `NaN` is modelled
  as `Option ℚ` (`none` = NaN); `NaN` propagation through `+` and `*` is
  exact JS semantics, no rounding is involved in the claims considered.
* A JavaScript object of interface `Food` may lack any of its fields
  (the component state starts as the empty object cast to `Food`, and
  `delete` removes fields), so every field of the `Food` structure is an
  `Option`; `none` means the field is absent (reads as `undefined`).
* The component state (`food`, `extras`, `isFavorite`, `foodQuantity`
  `useState` hooks) is the `OrderState` structure; each handler becomes a
  function from the data it reads to the data it writes, or a function
  `OrderState → OrderState` where the whole state is relevant.
-/

/-- An entry of the `extras` state array (TS interface `Extra`):
numeric id, name, unit value and a per-order quantity. -/
structure Extra where
  id : Int
  name : String
  value : ℚ
  quantity : Int
  deriving Repr, DecidableEq

/-- The `food` state object (TS interface `Food`).  Every field is an
`Option` because the state is initialised with the empty object
(`useState({} as Food)`), and `delete` removes fields at runtime. -/
structure Food where
  id : Option Int
  name : Option String
  description : Option String
  price : Option ℚ
  image_url : Option String
  formattedPrice : Option String
  extras : Option (List Extra)
  deriving Repr, DecidableEq

/-- The four `useState` hooks of the component, as one record. -/
structure OrderState where
  food : Food
  extras : List Extra
  isFavorite : Bool
  foodQuantity : Int
  deriving Repr, DecidableEq

/-- The initial `food` state: `useState({} as Food)` — the empty object,
every field absent. -/
def emptyFood : Food :=
  { id := none, name := none, description := none, price := none,
    image_url := none, formattedPrice := none, extras := none }

/-- The initial component state: `food = {}`, `extras = []`,
`isFavorite = false`, `foodQuantity = 1`. -/
def initialState : OrderState :=
  { food := emptyFood, extras := [], isFavorite := false, foodQuantity := 1 }

/-- A JS number that may be NaN: `none` is NaN, `some q` a finite value. -/
abbrev JsNum := Option ℚ

/-- JS addition: NaN absorbs. -/
def jsAdd : JsNum → JsNum → JsNum
  | some a, some b => some (a + b)
  | _, _ => none

/-- JS multiplication: NaN absorbs (exact semantics for the values used). -/
def jsMul : JsNum → JsNum → JsNum
  | some a, some b => some (a * b)
  | _, _ => none

/-- Behavior of `Number.parseFloat` applied to the string form of a possibly-absent
number field: an absent field prints as "undefined", which parses to NaN
(`none`); a finite number round-trips to itself. -/
def jsParseFloat : Option ℚ → JsNum
  | none => none
  | some p => some p

/-- The `cartTotal` memo: reduce the extras to
`Σ extra.value * extra.quantity` starting from `0.0`, parse that and the
food price, and multiply the sum of the two by `foodQuantity`.  The code
then hands the number to the external `formatValue` collaborator; this
definition yields the number passed to the formatter. -/
def cartTotal (food : Food) (extras : List Extra) (foodQuantity : Int) : JsNum :=
  let totalExtras : ℚ :=
    extras.foldl (fun accumulator extra => accumulator + extra.value * (extra.quantity : ℚ)) 0
  let parsedTotalExtras : JsNum := jsParseFloat (some totalExtras)
  let parsedFoodPrice : JsNum := jsParseFloat food.price
  jsMul (jsAdd parsedTotalExtras parsedFoodPrice) (some (foodQuantity : ℚ))

/-- Handler `handleIncrementExtra`: map over the extras, adding 1 to the quantity
of every entry whose id matches. -/
def handleIncrementExtra (id : Int) (extras : List Extra) : List Extra :=
  extras.map fun extra =>
    if extra.id = id then { extra with quantity := extra.quantity + 1 } else extra

/-- Handler `handleDecrementExtra`: map over the extras, subtracting 1 from the
quantity of every entry whose id matches and whose quantity is `> 0`. -/
def handleDecrementExtra (id : Int) (extras : List Extra) : List Extra :=
  extras.map fun extra =>
    if extra.id = id ∧ 0 < extra.quantity
    then { extra with quantity := extra.quantity - 1 }
    else extra

/-- Handler `handleIncrementFood`: `setFoodQuantity(foodQuantity + 1)`. -/
def handleIncrementFood (foodQuantity : Int) : Int :=
  foodQuantity + 1

/-- Handler `handleDecrementFood`: early return when `foodQuantity === 1`,
otherwise `setFoodQuantity(foodQuantity - 1)`. -/
def handleDecrementFood (foodQuantity : Int) : Int :=
  if foodQuantity = 1 then foodQuantity else foodQuantity - 1

/-- The `food` state produced by `loadFood` from an API response:
the response spread together with `formattedPrice := formatValue(price)`.
`formatValue` is an external collaborator, so the formatted string is a
parameter. -/
def loadFoodState (response : Food) (fmt : String) : Food :=
  { response with formattedPrice := some fmt }

/-- The `extras` state produced by `loadFood`: the loaded extras with
every quantity set to 0. -/
def loadExtras (extras : List Extra) : List Extra :=
  extras.map fun extra => { extra with quantity := 0 }

/-- JS `Array.prototype.findIndex`: index of the first match, `-1` if none. -/
def jsFindIndex (p : Food → Bool) (l : List Food) : Int :=
  match l.findIdx? p with
  | some i => (i : Int)
  | none => -1

/-- The `isFavorite` state after `loadFood` ran: starting from the initial
`false`, the hook is set to `true` exactly when
`findIndex(favId => favId.id === routeParams.id)` is not `-1` on the
favorites collection. -/
def loadIsFavorite (favorites : List Food) (routeId : Int) : Bool :=
  if jsFindIndex (fun favId => favId.id = some routeId) favorites ≠ -1 then true
  else initialState.isFavorite

/-- Handler `toggleFavorite`: `delete favFood.extras; delete favFood.formattedPrice`
mutate the `food` state object in place (aliased by `favFood`), then the
local flag flips; the create/delete API calls are external fire-and-forget
collaborators with no consumed result. -/
def toggleFavorite (s : OrderState) : OrderState :=
  let favFood : Food := { s.food with extras := none, formattedPrice := none }
  if !s.isFavorite then { s with food := favFood, isFavorite := true }
  else { s with food := favFood, isFavorite := false }

/-- The body posted to `orders` by `handleFinishOrder`: the live `food`
object with `formattedPrice` deleted. -/
def orderPayload (food : Food) : Food :=
  { food with formattedPrice := none }

/-- Handler `handleFinishOrder` on the component state: `delete` mutates the live
`food` object in place, so the state keeps the payload object; the POST
and navigation are external collaborators. -/
def handleFinishOrder (s : OrderState) : OrderState :=
  { s with food := orderPayload s.food }

/-- Handler `handleIncrementExtra` as a transition on the whole component state. -/
def stateIncrementExtra (id : Int) (s : OrderState) : OrderState :=
  { s with extras := handleIncrementExtra id s.extras }

/-- Handler `handleDecrementExtra` as a transition on the whole component state. -/
def stateDecrementExtra (id : Int) (s : OrderState) : OrderState :=
  { s with extras := handleDecrementExtra id s.extras }

/-- Handler `handleIncrementFood` as a transition on the whole component state. -/
def stateIncrementFood (s : OrderState) : OrderState :=
  { s with foodQuantity := handleIncrementFood s.foodQuantity }

/-- Handler `handleDecrementFood` as a transition on the whole component state. -/
def stateDecrementFood (s : OrderState) : OrderState :=
  { s with foodQuantity := handleDecrementFood s.foodQuantity }

/-- The fields of `Food` that belong to the Item proper (id, name,
description, unit price, image reference), bundled for comparison. -/
def coreFields (f : Food) :
    Option Int × Option String × Option String × Option ℚ × Option String :=
  (f.id, f.name, f.description, f.price, f.image_url)

-- Concrete records used by counterexamples and witnesses.

/-- A concrete API response with one extra, as returned by `/foods/1`. -/
def sampleResponse : Food :=
  { id := some 1, name := some "Ao molho", description := some "Massa ao molho",
    price := some 10, image_url := some "http://example.com/ao_molho.png",
    formattedPrice := none,
    extras := some [{ id := 1, name := "Bacon", value := 2, quantity := 0 }] }

/-- The component state right after `loadFood` processed `sampleResponse`. -/
def sampleLoadedState : OrderState :=
  { food := loadFoodState sampleResponse "R$ 10,00",
    extras := loadExtras [{ id := 1, name := "Bacon", value := 2, quantity := 0 }],
    isFavorite := false,
    foodQuantity := 1 }

/-- A concrete extra used in closed instances. -/
def extraBacon : Extra :=
  { id := 1, name := "Bacon", value := 2, quantity := 3 }

/-- A second concrete extra with a different id. -/
def extraCheddar : Extra :=
  { id := 2, name := "Cheddar", value := 3, quantity := 1 }

/-- A concrete favorites entry with id 5, as returned by `/favorites`. -/
def favoriteFive : Food :=
  { id := some 5, name := some "Lasanha", description := some "Massa",
    price := some 20, image_url := some "http://example.com/lasanha.png",
    formattedPrice := none, extras := some [] }

-- Helper lemmas.

/-- Unfolding the extras reduce: a left fold of `acc + value·quantity`
from `a` is `a` plus the sum of the per-extra subtotals. -/
theorem foldl_extras_eq_sum (l : List Extra) (a : ℚ) :
    l.foldl (fun accumulator extra => accumulator + extra.value * (extra.quantity : ℚ)) a
      = a + (l.map fun extra => extra.value * (extra.quantity : ℚ)).sum := by
  induction l generalizing a with
  | nil => simp
  | cons x xs ih => simp [List.foldl_cons, ih, add_assoc]

/-- Helper: `jsFindIndex` is `-1` exactly when no element satisfies the predicate. -/
theorem jsFindIndex_eq_neg_one_iff (p : Food → Bool) (l : List Food) :
    jsFindIndex p l = -1 ↔ ∀ x ∈ l, p x = false := by
  unfold jsFindIndex
  cases h : l.findIdx? p with
  | none =>
      simp only [true_iff]
      intro x hx
      have := List.findIdx?_eq_none_iff.mp h
      simpa using this x hx
  | some i =>
      constructor
      · intro hcontra
        have hint : (i : Int) = -1 := hcontra
        exact absurd hint (by omega)
      · intro hall
        have hnone : l.findIdx? p = none := List.findIdx?_eq_none_iff.mpr hall
        rw [h] at hnone
        exact Option.noConfusion hnone

/-- List map is the identity when the function fixes every element. -/
theorem map_eq_self_of_eq_id (f : Extra → Extra) (E : List Extra)
    (h : ∀ e ∈ E, f e = e) : E.map f = E := by
  induction E with
  | nil => rfl
  | cons x xs ih =>
      simp only [List.map_cons]
      rw [h x (List.mem_cons_self x xs), ih fun e he => h e (List.mem_cons_of_mem x he)]

-- Claim theorems.

/-- C1: for every extras sequence `E`, loaded item price `p` and item
quantity `q ≥ 1`, the number `cartTotal` hands to the currency formatter
equals `(Σ over e in E of e.value · e.quantity + p) · q` exactly, and any
permutation `E'` of the extras yields the same total. -/
theorem cartTotal_formula_and_perm (E E' : List Extra) (p : ℚ) (q : Int)
    (food : Food) (hp : food.price = some p) (hq : 1 ≤ q) (hperm : E.Perm E') :
    cartTotal food E q
        = some (((E.map fun e => e.value * (e.quantity : ℚ)).sum + p) * (q : ℚ)) ∧
    cartTotal food E' q = cartTotal food E q := by
  have hval : ∀ L : List Extra, cartTotal food L q
      = some (((L.map fun e => e.value * (e.quantity : ℚ)).sum + p) * (q : ℚ)) := by
    intro L
    simp [cartTotal, foldl_extras_eq_sum, hp, jsParseFloat, jsAdd, jsMul]
  refine ⟨hval E, ?_⟩
  rw [hval E, hval E']
  have hsum : (E.map fun e => e.value * (e.quantity : ℚ)).sum
      = (E'.map fun e => e.value * (e.quantity : ℚ)).sum :=
    (hperm.map _).sum_eq
  rw [hsum]

/-- Closed instance of C1: a loaded item of price 10, extras Bacon (2·3)
and Cheddar (3·1), quantity 2; total (6 + 3 + 10)·2 and the swapped
extras order gives the same total. -/
theorem cartTotal_formula_and_perm_witness :
    (sampleLoadedState.food.price = some 10 ∧ (1 : Int) ≤ 2 ∧
      List.Perm [extraBacon, extraCheddar] [extraCheddar, extraBacon]) ∧
    (cartTotal sampleLoadedState.food [extraBacon, extraCheddar] 2
        = some ((([extraBacon, extraCheddar].map
            fun e => e.value * (e.quantity : ℚ)).sum + 10) * (2 : ℚ)) ∧
      cartTotal sampleLoadedState.food [extraCheddar, extraBacon] 2
        = cartTotal sampleLoadedState.food [extraBacon, extraCheddar] 2) :=
  ⟨⟨rfl, by decide, List.Perm.swap extraCheddar extraBacon []⟩,
    cartTotal_formula_and_perm [extraBacon, extraCheddar] [extraCheddar, extraBacon]
      10 2 sampleLoadedState.food rfl (by decide)
      (List.Perm.swap extraCheddar extraBacon [])⟩

/-- C2: the item quantity stays `≥ 1` in every reachable state — it starts
at 1, incrementing preserves `≥ 1`, decrementing preserves `≥ 1`, and the
decrement at quantity 1 is a no-op. -/
theorem foodQuantity_ge_one_invariant (q : Int) (h : 1 ≤ q) :
    1 ≤ handleIncrementFood q ∧ 1 ≤ handleDecrementFood q ∧
    handleDecrementFood 1 = 1 ∧ 1 ≤ initialState.foodQuantity := by
  refine ⟨?_, ?_, by decide, by decide⟩
  · unfold handleIncrementFood
    omega
  · unfold handleDecrementFood
    split <;> omega

/-- Closed instance of C2 at quantity 1. -/
theorem foodQuantity_ge_one_invariant_witness :
    (1 : Int) ≤ 1 ∧
    (1 ≤ handleIncrementFood 1 ∧ 1 ≤ handleDecrementFood 1 ∧
      handleDecrementFood 1 = 1 ∧ 1 ≤ initialState.foodQuantity) :=
  ⟨by decide, foodQuantity_ge_one_invariant 1 (by decide)⟩

/-- C3: extras quantities stay `≥ 0` in every reachable state — the load
initialises every quantity to 0, increment and decrement preserve
non-negativity, and the decrement of an extra whose quantity is 0 leaves
that entry unchanged (positionally, so the quantity stays 0). -/
theorem extraQuantity_nonneg_invariant (id : Int) (E E0 : List Extra)
    (h : ∀ e ∈ E, 0 ≤ e.quantity) :
    (∀ e ∈ loadExtras E0, 0 ≤ e.quantity) ∧
    (∀ e ∈ handleIncrementExtra id E, 0 ≤ e.quantity) ∧
    (∀ e ∈ handleDecrementExtra id E, 0 ≤ e.quantity) ∧
    (∀ i, (hi : i < E.length) → E[i].quantity = 0 →
      (handleDecrementExtra id E)[i]? = some E[i]) := by
  refine ⟨?_, ?_, ?_, ?_⟩
  · intro e he
    unfold loadExtras at he
    rcases List.mem_map.mp he with ⟨x, hx, rfl⟩
    exact le_refl 0
  · intro e he
    unfold handleIncrementExtra at he
    rcases List.mem_map.mp he with ⟨x, hx, rfl⟩
    have hxq := h x hx
    split
    · show 0 ≤ x.quantity + 1
      omega
    · exact hxq
  · intro e he
    unfold handleDecrementExtra at he
    rcases List.mem_map.mp he with ⟨x, hx, rfl⟩
    have hxq := h x hx
    split
    · next hcond =>
        show 0 ≤ x.quantity - 1
        omega
    · exact hxq
  · intro i hi hq0
    unfold handleDecrementExtra
    have hneg : ¬(E[i].id = id ∧ 0 < E[i].quantity) := by
      rintro ⟨-, hlt⟩
      omega
    rw [List.getElem?_map, List.getElem?_eq_getElem hi]
    simp [hneg]

/-- Closed instance of C3: one extra of id 1 and quantity 0; both mutators
keep quantities non-negative and the decrement leaves the entry at 0. -/
theorem extraQuantity_nonneg_invariant_witness :
    (∀ e ∈ [Extra.mk 1 "Bacon" 2 0], 0 ≤ e.quantity) ∧
    ((∀ e ∈ loadExtras [extraBacon], 0 ≤ e.quantity) ∧
      (∀ e ∈ handleIncrementExtra 1 [Extra.mk 1 "Bacon" 2 0], 0 ≤ e.quantity) ∧
      (∀ e ∈ handleDecrementExtra 1 [Extra.mk 1 "Bacon" 2 0], 0 ≤ e.quantity) ∧
      (∀ i, (hi : i < [Extra.mk 1 "Bacon" 2 0].length) →
        ([Extra.mk 1 "Bacon" 2 0])[i].quantity = 0 →
        (handleDecrementExtra 1 [Extra.mk 1 "Bacon" 2 0])[i]?
          = some ([Extra.mk 1 "Bacon" 2 0])[i])) :=
  ⟨by decide, extraQuantity_nonneg_invariant 1 [Extra.mk 1 "Bacon" 2 0] [extraBacon]
    (by decide)⟩

/-- C4: incrementing or decrementing an id that no extra carries maps
every element to itself, so the whole sequence is unchanged by value. -/
theorem unknown_id_is_noop (id : Int) (E : List Extra)
    (h : ∀ e ∈ E, e.id ≠ id) :
    handleIncrementExtra id E = E ∧ handleDecrementExtra id E = E := by
  constructor
  · exact map_eq_self_of_eq_id _ E fun e he => if_neg (h e he)
  · exact map_eq_self_of_eq_id _ E fun e he => by
      rw [if_neg]
      rintro ⟨heq, -⟩
      exact h e he heq

/-- Closed instance of C4: id 99 matches neither extra, both handlers
return the sequence unchanged. -/
theorem unknown_id_is_noop_witness :
    (∀ e ∈ [extraBacon, extraCheddar], e.id ≠ 99) ∧
    (handleIncrementExtra 99 [extraBacon, extraCheddar] = [extraBacon, extraCheddar] ∧
      handleDecrementExtra 99 [extraBacon, extraCheddar] = [extraBacon, extraCheddar]) :=
  ⟨by decide, unknown_id_is_noop 99 [extraBacon, extraCheddar] (by decide)⟩

/-- C5: when exactly one position `i` of the extras carries the id, the
increment handler keeps the length, replaces position `i` by the same
extra with quantity one larger, and leaves every other position equal by
value (order preserved positionally). -/
theorem incrementExtra_found (E : List Extra) (id : Int) (i : ℕ)
    (hi : i < E.length) (hid : E[i].id = id)
    (huniq : ∀ j, (hj : j < E.length) → j ≠ i → E[j].id ≠ id) :
    (handleIncrementExtra id E).length = E.length ∧
    (handleIncrementExtra id E)[i]? = some { E[i] with quantity := E[i].quantity + 1 } ∧
    ∀ j : ℕ, j ≠ i → (handleIncrementExtra id E)[j]? = E[j]? := by
  unfold handleIncrementExtra
  refine ⟨List.length_map _ _, ?_, ?_⟩
  · rw [List.getElem?_map, List.getElem?_eq_getElem hi]
    simp [hid]
  · intro j hj
    rw [List.getElem?_map]
    by_cases hjlen : j < E.length
    · rw [List.getElem?_eq_getElem hjlen]
      simp [if_neg (huniq j hjlen hj)]
    · rw [List.getElem?_eq_none (by omega)]
      rfl

/-- Closed instance of C5: Cheddar (id 2) sits at position 1 of two
extras; the increment bumps its quantity from 1 to 2 and keeps Bacon. -/
theorem incrementExtra_found_witness :
    (1 < [extraBacon, extraCheddar].length ∧
      ([extraBacon, extraCheddar])[1].id = 2 ∧
      (∀ j, (hj : j < [extraBacon, extraCheddar].length) → j ≠ 1 →
        ([extraBacon, extraCheddar])[j].id ≠ 2)) ∧
    ((handleIncrementExtra 2 [extraBacon, extraCheddar]).length
        = [extraBacon, extraCheddar].length ∧
      (handleIncrementExtra 2 [extraBacon, extraCheddar])[1]?
        = some { ([extraBacon, extraCheddar])[1] with
            quantity := ([extraBacon, extraCheddar])[1].quantity + 1 } ∧
      ∀ j : ℕ, j ≠ 1 → (handleIncrementExtra 2 [extraBacon, extraCheddar])[j]?
        = ([extraBacon, extraCheddar])[j]?) :=
  ⟨⟨by decide, by decide, by decide⟩,
    incrementExtra_found [extraBacon, extraCheddar] 2 1 (by decide) (by decide)
      (by decide)⟩

/-- C6 counterexample: the body of the order POST is the live food object
with only `formattedPrice` deleted, and for the loaded sample item that
body still carries the extras field loaded from the API — the payload is
not free of extras. -/
theorem orderPayload_contains_extras :
    (orderPayload sampleLoadedState.food).extras
        = some [{ id := 1, name := "Bacon", value := 2, quantity := 0 }] ∧
    (orderPayload sampleLoadedState.food).extras ≠ none :=
  ⟨rfl, by simp [orderPayload, sampleLoadedState, loadFoodState, sampleResponse]⟩

/-- C6 amended: the payload is the loaded food record with the transient
`formattedPrice` excluded; the item fields survive unchanged, the extras
field loaded from the API survives as well, and the payload is
independent of the local extras state, favorite flag and item quantity
(the last conjunct: `handleFinishOrder` posts the same record whatever
those hooks hold). -/
theorem orderPayload_characterization (response : Food) (fmt : String)
    (E : List Extra) (fav : Bool) (q : Int) :
    (orderPayload (loadFoodState response fmt)).id = response.id ∧
    (orderPayload (loadFoodState response fmt)).name = response.name ∧
    (orderPayload (loadFoodState response fmt)).description = response.description ∧
    (orderPayload (loadFoodState response fmt)).price = response.price ∧
    (orderPayload (loadFoodState response fmt)).image_url = response.image_url ∧
    (orderPayload (loadFoodState response fmt)).formattedPrice = none ∧
    (orderPayload (loadFoodState response fmt)).extras = response.extras ∧
    (handleFinishOrder ⟨loadFoodState response fmt, E, fav, q⟩).food
      = orderPayload (loadFoodState response fmt) :=
  ⟨rfl, rfl, rfl, rfl, rfl, rfl, rfl, rfl⟩

/-- C7 counterexample: the favorite toggle deletes the `formattedPrice`
and `extras` fields from the loaded food record in place, so the Item
record is not immutable. -/
theorem toggleFavorite_mutates_item :
    sampleLoadedState.food.formattedPrice = some "R$ 10,00" ∧
    (toggleFavorite sampleLoadedState).food.formattedPrice = none ∧
    sampleLoadedState.food.extras
      = some [{ id := 1, name := "Bacon", value := 2, quantity := 0 }] ∧
    (toggleFavorite sampleLoadedState).food.extras = none :=
  ⟨rfl, rfl, rfl, rfl⟩

/-- C7 amended: every operation preserves the core Item fields (id, name,
description, price, image_url); only the transient `formattedPrice` and
`extras` fields are removed — by the favorite toggle and by order
submission.  `cartTotal` is a pure function of the state and returns a
number, so it cannot change the record at all. -/
theorem item_core_fields_preserved (s : OrderState) (id : Int) :
    coreFields (toggleFavorite s).food = coreFields s.food ∧
    coreFields (handleFinishOrder s).food = coreFields s.food ∧
    (stateIncrementExtra id s).food = s.food ∧
    (stateDecrementExtra id s).food = s.food ∧
    (stateIncrementFood s).food = s.food ∧
    (stateDecrementFood s).food = s.food := by
  refine ⟨?_, rfl, rfl, rfl, rfl, rfl⟩
  unfold toggleFavorite
  split <;> rfl

/-- C8: starting from NOT_FAVORITE, one toggle reaches FAVORITE and a
second toggle returns the local flag to NOT_FAVORITE. -/
theorem toggleFavorite_roundtrip (s : OrderState) (h : s.isFavorite = false) :
    (toggleFavorite s).isFavorite = true ∧
    (toggleFavorite (toggleFavorite s)).isFavorite = false := by
  constructor
  · simp [toggleFavorite, h]
  · simp [toggleFavorite, h]

/-- Closed instance of C8 at the initial state. -/
theorem toggleFavorite_roundtrip_witness :
    initialState.isFavorite = false ∧
    ((toggleFavorite initialState).isFavorite = true ∧
      (toggleFavorite (toggleFavorite initialState)).isFavorite = false) :=
  ⟨rfl, toggleFavorite_roundtrip initialState rfl⟩

/-- C9: after the load, the local favorite flag is `true` exactly when
some entry of the favorites collection carries the loaded item's id; in
particular a favorites list containing id 5 makes the load of item 5
start as FAVORITE. -/
theorem loadIsFavorite_iff (favorites : List Food) (routeId : Int) :
    (loadIsFavorite favorites routeId = true ↔
      ∃ f ∈ favorites, f.id = some routeId) ∧
    loadIsFavorite [favoriteFive] 5 = true := by
  constructor
  · have hkey : loadIsFavorite favorites routeId = true ↔
        jsFindIndex (fun favId => favId.id = some routeId) favorites ≠ -1 := by
      unfold loadIsFavorite
      split
      · next h1 => simp [h1]
      · next h1 =>
          simp only [ne_eq, not_not] at h1
          simp [initialState, h1]
    rw [hkey, Ne, jsFindIndex_eq_neg_one_iff]
    simp
  · rfl

/-- C10: before the load resolves, the food state is the empty object, so
`cartTotal` parses an absent price — the number handed to the currency
formatter is NaN (the `none` of `JsNum`), not 0 and not an error; this
holds for the initial state and for any extras and quantity while the
food record is still empty. -/
theorem cartTotal_initial_is_NaN :
    cartTotal initialState.food initialState.extras initialState.foodQuantity = none ∧
    (∀ E : List Extra, ∀ q : Int, cartTotal emptyFood E q = none) :=
  ⟨rfl, fun _ _ => rfl⟩
